import Mathlib

/-!
Verification development for the connection-semantics prototype
(`pynest/nest/lib/hl_api_projections.py`): a deferred-batch
connection-specification compiler.  Projections (descriptors of intended
connectivity) are accumulated in a global batch and, at `BuildNetwork`,
classified into an array fast-path, a spatial-merge path, or a standard
path, producing one flat instruction list handed to the execution engine.

The embedding is shallow: Python dictionaries become association lists with
Python's in-place-update semantics, the global `projection_collection`
becomes an explicit state value, engine side effects (`array_connect`,
`sps`/`sr`, `nestlib_Connect`) become an explicit trace of engine calls, and
Python exceptions become `Except` results.
-/

namespace ProjSpec

/-- A Python value stored in a connection- or synapse-specification mapping. -/
inductive Val
  | vbool (b : Bool)
  | vnat (n : Nat)
  | vstr (s : String)
  deriving DecidableEq, Repr

/-- A Python dictionary with string keys, as an ordered association list. -/
abbrev Dict := List (String × Val)

/-- Python dictionary lookup. -/
def dictLookup : Dict → String → Option Val
  | [], _ => Option.none
  | (k', v') :: rest, k => if k' = k then some v' else dictLookup rest k

/-- Python `d[k] = v`: replace in place when the key exists (insertion order
of an existing key is kept), append otherwise. -/
def dictInsert : Dict → String → Val → Dict
  | [], k, v => [(k, v)]
  | (k', v') :: rest, k, v =>
    if k' = k then (k, v) :: rest else (k', v') :: dictInsert rest k v

/-- Python `d.update(us)`: insert every pair of `us`, left to right. -/
def dictUpdate (d : Dict) (us : Dict) : Dict :=
  us.foldl (fun acc kv => dictInsert acc kv.1 kv.2) d

/-- A `NodeCollection`: an ordered group of node ids with optional spatial
metadata (the metadata itself is opaque to this core, only its presence is
queried). -/
structure NodeCollection where
  ids : List Nat
  spatial : Option Unit
  deriving DecidableEq, Repr

/-- A source/target group argument: either a `NodeCollection` or a raw
Python sequence of indices (as `ArrayConnect` receives). -/
inductive Grp
  | nc (c : NodeCollection)
  | raw (l : List Nat)
  deriving DecidableEq, Repr

/-- Python `len` on a group argument. -/
def Grp.len : Grp → Nat
  | Grp.nc c => c.ids.length
  | Grp.raw l => l.length

/-- A synapse specification as supplied to a projection: absent (`None`), a
single parameter mapping (`dict`), a `SynapseModel` value object, a
`CollocatedSynapses` object, or a plain Python list of mappings. -/
inductive SynVal
  | svnone
  | svdict (d : Dict)
  | svmodel (d : Dict)
  | svcoll (ds : List Dict)
  | svlist (ds : List Dict)
  deriving DecidableEq, Repr

/-- Python errors raised by this module. -/
inductive PyErr
  | typeError (msg : String)
  | attributeError (msg : String)
  deriving DecidableEq, Repr

/-- A `Projection` descriptor (the five instance fields of the Python
class). -/
structure Projection where
  source : Grp
  target : Grp
  conn_spec : Dict
  syn_spec : SynVal
  use_connect_arrays : Bool
  deriving DecidableEq, Repr

/-- `Projection.__init__` (lines 52-64): the subclass has already set
`conn_spec` to `base_spec`; `__init__` updates it with the keyword
arguments, then stores `allow_autapses` / `allow_multapses` only when the
passed value is exactly a `bool` (`param is not None and type(param) is
bool`), and clears `use_connect_arrays`. -/
def applyFlag (d : Dict) (name : String) (param : Option Val) : Dict :=
  match param with
  | some (Val.vbool b) => dictInsert d name (Val.vbool b)
  | _ => d

def projInit (source target : Grp) (allow_autapses allow_multapses : Option Val)
    (syn_spec : SynVal) (base_spec kwargs : Dict) : Projection :=
  let conn0 := dictUpdate base_spec kwargs
  let conn1 := applyFlag conn0 "allow_autapses" allow_autapses
  let conn2 := applyFlag conn1 "allow_multapses" allow_multapses
  { source := source, target := target, conn_spec := conn2,
    syn_spec := syn_spec, use_connect_arrays := false }

/-- `AllToAll.__init__` (lines 189-192). -/
def AllToAll.make (source target : Grp) (aa am : Option Val) (syn : SynVal)
    (kwargs : Dict) : Projection :=
  projInit source target aa am syn [("rule", Val.vstr "all_to_all")] kwargs

/-- `OneToOne.__init__` (lines 236-239). -/
def OneToOne.make (source target : Grp) (aa am : Option Val) (syn : SynVal)
    (kwargs : Dict) : Projection :=
  projInit source target aa am syn [("rule", Val.vstr "one_to_one")] kwargs

/-- `FixedIndegree.__init__` (lines 218-221). -/
def FixedIndegree.make (source target : Grp) (indegree : Val) (aa am : Option Val)
    (syn : SynVal) (kwargs : Dict) : Projection :=
  projInit source target aa am syn
    [("rule", Val.vstr "fixed_indegree"), ("indegree", indegree)] kwargs

/-- `len(set(l)) == len(l)` on a Python sequence of indices. -/
def dedupOk (l : List Nat) : Bool := l.dedup.length == l.length

/-- `ArrayConnect.__init__` (lines 195-209): rule is `one_to_one`; when both
inputs are raw (non-`NodeCollection`) sequences without duplicates they are
converted to `NodeCollection`s, otherwise the array fast-path flag is set. -/
def ArrayConnect.make (source target : Grp) (aa am : Option Val) (syn : SynVal)
    (kwargs : Dict) : Projection :=
  let p := projInit source target aa am syn [("rule", Val.vstr "one_to_one")] kwargs
  match source, target with
  | Grp.raw s, Grp.raw t =>
    if dedupOk s && dedupOk t then
      { p with source := Grp.nc { ids := s, spatial := Option.none },
               target := Grp.nc { ids := t, spatial := Option.none } }
    else
      { p with use_connect_arrays := true }
  | _, _ => { p with use_connect_arrays := true }

/-- Modelled from the spec: `_process_syn_spec` lives in
`hl_api_connection_helpers`, which is not under `src/`.  The spec scopes
synapse-specification handling of this core to shape normalization and
treats "parsing/validation of synapse-model parameter dictionaries" as an
external collaborator, so on an already-shaped specification the processing
step is modelled as the identity (its extra arguments — the connection
spec and the source/target lengths — are only used by the delegated
validation). -/
def process_syn_spec (syn : SynVal) (_conn : Dict) (_lenSource _lenTarget : Nat) :
    SynVal :=
  syn

/-- `Projection.to_list` (lines 74-84): resolve a `SynapseModel` object to
its mapping, run the (delegated) processing step, then default the synapse
model name: `None` becomes `{'synapse_model': 'static_synapse'}`, and a
mapping lacking the `synapse_model` key gains it. -/
def toList (p : Projection) : Grp × Grp × Dict × SynVal :=
  let syn0 : SynVal :=
    match p.syn_spec with
    | SynVal.svmodel d => SynVal.svdict d
    | s => s
  let syn1 := process_syn_spec syn0 p.conn_spec p.source.len p.target.len
  let syn2 : SynVal :=
    match syn1 with
    | SynVal.svnone => SynVal.svdict [("synapse_model", Val.vstr "static_synapse")]
    | SynVal.svdict d =>
      if (dictLookup d "synapse_model").isNone then
        SynVal.svdict (dictInsert d "synapse_model" (Val.vstr "static_synapse"))
      else SynVal.svdict d
    | s => s
  (p.source, p.target, p.conn_spec, syn2)

/-- `Projection.apply`'s synapse-spec resolution (line 68): a
`SynapseModel` object is converted to its mapping, anything else passes
through. -/
def applySynResolve : SynVal → SynVal
  | SynVal.svmodel d => SynVal.svdict d
  | s => s

/-- One instruction of the shared list handed to `connect_projections`:
either a three-element spatial instruction or a four-element standard
instruction. -/
inductive EngineInstr
  | spatial (s t : Grp) (merged : Dict)
  | standard (s t : Grp) (conn : Dict) (syn : SynVal)
  deriving DecidableEq, Repr

/-- One observable call into the execution engine. -/
inductive EngineCall
  | arrayCall (s t : Grp) (conn : Dict) (syn : SynVal)
  | batchCall (instrs : List EngineInstr)
  | singleCall (s t : Grp) (conn : Dict) (syn : SynVal)
  deriving DecidableEq, Repr

/-- An element of the global batch.  `Connect` appends the elements of a
list/tuple argument without checking their type, so the batch can hold
values that are not projections (`other`, tagged to tell instances apart). -/
inductive BatchItem
  | proj (p : Projection)
  | other (tag : Nat)
  deriving DecidableEq, Repr

/-- The state of the global `projection_collection`
(`ProjectionCollection`, lines 105-121): `batch` is
`_batch_projections`. -/
structure BNState where
  batch : List BatchItem
  network_built : Bool
  deriving DecidableEq, Repr

/-- `reset_projection_collection` (lines 184-186). -/
def reset_projection_collection (_st : BNState) : BNState :=
  { batch := [], network_built := false }

/-- An argument to `Connect` / `ConnectImmediately`: a projection, a
list/tuple, or any other Python value. -/
inductive PyArg
  | parg (p : Projection)
  | sarg (items : List BatchItem)
  | oarg (tag : Nat)
  deriving DecidableEq, Repr

/-- `Connect` (lines 124-133): a projection is appended; every element of a
list/tuple is appended as-is (no element type check); anything else raises
`TypeError`.  On success the `network_built` flag ends up false (it is
cleared when it was set). -/
def Connect (st : BNState) (arg : PyArg) : Except PyErr BNState :=
  match arg with
  | PyArg.parg p => Except.ok { batch := st.batch ++ [BatchItem.proj p], network_built := false }
  | PyArg.sarg items => Except.ok { batch := st.batch ++ items, network_built := false }
  | PyArg.oarg _ =>
    Except.error (PyErr.typeError "\x22projection\x22 must be a projection or a list of projections")

/-- `Projection.apply` (lines 66-69): resolve a `SynapseModel` synapse spec
and call the engine's single-projection connect. -/
def Projection.applyCall (p : Projection) : EngineCall :=
  EngineCall.singleCall p.source p.target p.conn_spec (applySynResolve p.syn_spec)

/-- `issubclass(type(x), Projection)` on one element. -/
def isProjItem : BatchItem → Bool
  | BatchItem.proj _ => true
  | BatchItem.other _ => false

/-- `ConnectImmediately` (lines 136-142): one projection is wrapped in a
list; then the argument must be a list/tuple whose every element is a
projection — checked before any `apply()` — else `TypeError`.  On success
the returned trace is the `apply()` engine call of each element in order. -/
def ConnectImmediately (arg : PyArg) : Except PyErr (List EngineCall) :=
  match arg with
  | PyArg.parg p => Except.ok [p.applyCall]
  | PyArg.sarg items =>
    if items.all isProjItem then
      Except.ok (items.filterMap
        (fun it => match it with | BatchItem.proj p => some p.applyCall | _ => Option.none))
    else
      Except.error (PyErr.typeError "\x22projections\x22 must be a projection or a list of projections")
  | PyArg.oarg _ =>
    Except.error (PyErr.typeError "\x22projections\x22 must be a projection or a list of projections")

/-- Modelled from the spec: `_connect_layers_needed` lives in
`hl_api_connection_helpers`, which is not under `src/`.  The spec says the
spatial-merge path is "triggered when the rule/synapse combination requires
spatial evaluation (a masked or kernel-bearing connection_spec, or a
synapse parameter that varies spatially)"; spatially-varying synapse
parameters are not representable in this value model, so the predicate
checks the connection spec for a `mask` or `kernel` entry. -/
def connect_layers_needed (conn : Dict) (_syn : SynVal) : Bool :=
  (dictLookup conn "mask").isSome || (dictLookup conn "kernel").isSome

/-- Modelled from the spec: `_process_spatial_projections` lives in
`hl_api_connection_helpers`, which is not under `src/`.  The spec says
`connection_spec` and `synapse_spec` "are merged into one
spatial-projection dictionary" with "parameter-merge semantics delegated";
the merge is modelled as updating the connection spec with the synapse
mappings. -/
def process_spatial_projections (conn : Dict) (syn : SynVal) : Dict :=
  match syn with
  | SynVal.svdict d => dictUpdate conn d
  | SynVal.svcoll ds => ds.foldl dictUpdate conn
  | SynVal.svlist ds => ds.foldl dictUpdate conn
  | _ => conn

/-- Reading `.spatial` on a group (lines 159-162): a `NodeCollection`
answers its metadata; a raw Python sequence has no such attribute. -/
def grpSpatial : Grp → Except PyErr (Option Unit)
  | Grp.nc c => Except.ok c.spatial
  | Grp.raw _ => Except.error (PyErr.attributeError "object has no attribute spatial")

/-- The standard path's synapse coercion inside `BuildNetwork` (lines
168-172): a `CollocatedSynapses` spec is unwrapped to its list, a single
mapping is wrapped as a one-element list, anything else passes through. -/
def coerceSyn : SynVal → SynVal
  | SynVal.svcoll ds => SynVal.svlist ds
  | SynVal.svdict d => SynVal.svlist [d]
  | s => s

/-- `BuildNetwork`'s loop over the batch (lines 152-173): each projection
is classified into the array fast-path (immediate engine dispatch), the
spatial-merge path (with the two spatial preconditions), or the standard
path.  Returns the engine calls performed during iteration (array
dispatches, in encounter order) and either the accumulated shared
instruction list or the first error.  Array dispatches made before an
error have already taken effect; a batch element that is not a projection
fails the `to_list` call. -/
def buildLoop : List BatchItem → List EngineCall × Except PyErr (List EngineInstr)
  | [] => ([], Except.ok [])
  | BatchItem.other _ :: _ =>
    ([], Except.error (PyErr.attributeError "object has no attribute to_list"))
  | BatchItem.proj p :: rest =>
    if p.use_connect_arrays then
      let q := buildLoop rest
      (EngineCall.arrayCall (toList p).1 (toList p).2.1 (toList p).2.2.1 (toList p).2.2.2 :: q.1,
       q.2)
    else if connect_layers_needed (toList p).2.2.1 (toList p).2.2.2 then
      match grpSpatial (toList p).1 with
      | Except.error e => ([], Except.error e)
      | Except.ok Option.none =>
        ([], Except.error (PyErr.typeError "Presynaptic NodeCollection must have spatial information"))
      | Except.ok (some _) =>
        match grpSpatial (toList p).2.1 with
        | Except.error e => ([], Except.error e)
        | Except.ok Option.none =>
          ([], Except.error (PyErr.typeError "Postsynaptic NodeCollection must have spatial information"))
        | Except.ok (some _) =>
          let q := buildLoop rest
          (q.1,
           q.2.map (fun l =>
             EngineInstr.spatial (toList p).1 (toList p).2.1
               (process_spatial_projections (toList p).2.2.1 (toList p).2.2.2) :: l))
    else
      let q := buildLoop rest
      (q.1,
       q.2.map (fun l =>
         EngineInstr.standard (toList p).1 (toList p).2.1 (toList p).2.2.1
           (coerceSyn (toList p).2.2.2) :: l))

/-- `BuildNetwork` (lines 145-181): a no-op when the network is already
built; otherwise run the loop, submit the shared instruction list to the
engine in one `connect_projections` call, then reset the batch and set the
built flag.  An error propagates before any state mutation, so the batch is
left untouched.  Result: (engine-call trace, outcome, final state). -/
def BuildNetwork (st : BNState) : List EngineCall × Except PyErr Unit × BNState :=
  if st.network_built then ([], Except.ok (), st)
  else
    let r := buildLoop st.batch
    match r.2 with
    | Except.ok instrs =>
      (r.1 ++ [EngineCall.batchCall instrs], Except.ok (),
       { batch := [], network_built := true })
    | Except.error e => (r.1, Except.error e, st)

/-!
### Object-reference model for `clone`

`Projection.clone` (lines 71-72) is `copy.copy(self)`: the copy's attribute
dictionary is a shallow copy of the original's, so the copied `conn_spec`
attribute refers to the SAME dict object as the original's.  To reason
about this aliasing, connection-spec mappings live in an explicit store of
dict cells and a projection object holds a reference into that store.
-/

/-- A store of connection-spec dict objects, addressed by reference. -/
abbrev Store := List Dict

/-- A `Projection` object whose `conn_spec` attribute is a reference into
the store; the remaining attributes are immutable values here. -/
structure ProjObj where
  sourceF : Grp
  targetF : Grp
  synF : SynVal
  useArrF : Bool
  connSpecRef : Nat
  deriving DecidableEq, Repr

def storeGet (σ : Store) (r : Nat) : Dict := (σ.getD r [])

def storeSet (σ : Store) (r : Nat) (d : Dict) : Store := σ.set r d

/-- `Projection.clone` (lines 71-72): `copy.copy(self)` copies every
attribute as-is — in particular the `conn_spec` mapping reference is
shared between clone and original. -/
def ProjObj.clone (p : ProjObj) : ProjObj := p

/-- `Projection.__setattr__` (lines 94-98) for a non-reserved attribute
name: the value is written into the referenced connection-spec mapping. -/
def setattrAux (σ : Store) (p : ProjObj) (attr : String) (v : Val) : Store :=
  storeSet σ p.connSpecRef (dictInsert (storeGet σ p.connSpecRef) attr v)

/-- `Projection.__getattr__` (lines 86-92) for a non-reserved attribute
name: the name is looked up in the referenced connection-spec mapping
(`none` models the `AttributeError` branch). -/
def getattrAux (σ : Store) (p : ProjObj) (attr : String) : Option Val :=
  dictLookup (storeGet σ p.connSpecRef) attr

/-- Whether an engine call is the batch submission (`sps`/`sr
'connect_projections'`). -/
def isBatchCall : EngineCall → Bool
  | EngineCall.batchCall _ => true
  | _ => false

/-- The standard-path instruction emitted for one projection. -/
def stdInstr (p : Projection) : EngineInstr :=
  EngineInstr.standard (toList p).1 (toList p).2.1 (toList p).2.2.1
    (coerceSyn (toList p).2.2.2)

/-- A batch element that `buildLoop` processes without raising: a
projection on the array fast-path, on the standard path, or on the
spatial path with spatial metadata present on both sides. -/
def noErrItem : BatchItem → Bool
  | BatchItem.proj p =>
    p.use_connect_arrays ||
    !(connect_layers_needed (toList p).2.2.1 (toList p).2.2.2) ||
    (match (toList p).1, (toList p).2.1 with
     | Grp.nc c1, Grp.nc c2 => c1.spatial.isSome && c2.spatial.isSome
     | _, _ => false)
  | BatchItem.other _ => false

/-- Spec-side predicate, following the spec's words: the argument "is a
descriptor". -/
def isProjArg : PyArg → Bool
  | PyArg.parg _ => true
  | _ => false

/-- Spec-side predicate, following the spec's words: the argument "is a
sequence of descriptors". -/
def seqOfProjections : PyArg → Bool
  | PyArg.sarg items => items.all isProjItem
  | _ => false

/-- A sample node group without spatial metadata. -/
def sampleGrp : Grp := Grp.nc { ids := [1, 2], spatial := Option.none }

/-- A sample node group with spatial metadata. -/
def sampleGrpSp : Grp := Grp.nc { ids := [1], spatial := some () }

/-- A sample `FixedIndegree` projection with indegree 2. -/
def sampleFI2 : Projection :=
  FixedIndegree.make sampleGrp sampleGrp (Val.vnat 2) Option.none Option.none SynVal.svnone []

/-- A sample `FixedIndegree` projection with indegree 5. -/
def sampleFI5 : Projection :=
  FixedIndegree.make sampleGrp sampleGrp (Val.vnat 5) Option.none Option.none SynVal.svnone []

/-- A sample `OneToOne` projection with no synapse specification. -/
def sampleOneToOne : Projection :=
  OneToOne.make sampleGrp sampleGrp Option.none Option.none SynVal.svnone []

/-- A sample masked (spatially-triggered) projection whose source has
spatial metadata and whose target lacks it. -/
def sampleMasked : Projection :=
  OneToOne.make sampleGrpSp sampleGrp Option.none Option.none SynVal.svnone
    [("mask", Val.vstr "circular")]

/-- A sample projection object whose connection-spec mapping lives at
store reference 0. -/
def sampleObj : ProjObj :=
  { sourceF := Grp.nc { ids := [1], spatial := Option.none },
    targetF := Grp.nc { ids := [2], spatial := Option.none },
    synF := SynVal.svnone, useArrF := false, connSpecRef := 0 }

/-- A sample store holding that mapping. -/
def sampleStore : Store := [[("rule", Val.vstr "one_to_one")]]

/-!
### Dictionary and store lemmas
-/

theorem dictLookup_dictInsert_self (d : Dict) (k : String) (v : Val) :
    dictLookup (dictInsert d k v) k = some v := by
  induction d with
  | nil => simp [dictInsert, dictLookup]
  | cons kv rest ih =>
    obtain ⟨k1, v1⟩ := kv
    by_cases h : k1 = k
    · simp [dictInsert, h, dictLookup]
    · simp [dictInsert, h, dictLookup, ih]

theorem dictLookup_dictInsert_ne (d : Dict) (k1 : String) (v : Val) (k2 : String)
    (h : k1 ≠ k2) :
    dictLookup (dictInsert d k1 v) k2 = dictLookup d k2 := by
  induction d with
  | nil => simp [dictInsert, dictLookup, h]
  | cons kv rest ih =>
    obtain ⟨k3, v3⟩ := kv
    by_cases h3 : k3 = k1
    · simp [dictInsert, h3, dictLookup, h]
    · simp [dictInsert, h3, dictLookup, ih]

theorem dictLookup_dictUpdate_none (us d : Dict) (k : String)
    (hu : dictLookup us k = Option.none) (hd : dictLookup d k = Option.none) :
    dictLookup (dictUpdate d us) k = Option.none := by
  induction us generalizing d with
  | nil => simpa [dictUpdate] using hd
  | cons kv rest ih =>
    obtain ⟨k1, v1⟩ := kv
    by_cases h1 : k1 = k
    · simp [dictLookup, h1] at hu
    · have hrest : dictLookup rest k = Option.none := by
        simpa [dictLookup, h1] using hu
      have hstep : dictUpdate d ((k1, v1) :: rest) = dictUpdate (dictInsert d k1 v1) rest := rfl
      rw [hstep]
      exact ih (dictInsert d k1 v1) hrest
        (by rw [dictLookup_dictInsert_ne _ _ _ _ h1]; exact hd)

theorem applyFlag_lookup_ne (d : Dict) (name : String) (param : Option Val)
    (k : String) (h : name ≠ k) :
    dictLookup (applyFlag d name param) k = dictLookup d k := by
  match param with
  | Option.none => rfl
  | some (Val.vbool b) => exact dictLookup_dictInsert_ne _ _ _ _ h
  | some (Val.vnat n) => rfl
  | some (Val.vstr s) => rfl

theorem applyFlag_nonbool (d : Dict) (name : String) (param : Option Val)
    (h : ∀ b, param ≠ some (Val.vbool b)) :
    applyFlag d name param = d := by
  match param with
  | Option.none => rfl
  | some (Val.vbool b) => exact absurd rfl (h b)
  | some (Val.vnat n) => rfl
  | some (Val.vstr s) => rfl

theorem storeGet_storeSet_self (σ : Store) (r : Nat) (d : Dict)
    (h : r < σ.length) :
    storeGet (storeSet σ r d) r = d := by
  simp [storeGet, storeSet, List.getD, List.getElem?_set_eq_of_lt _ h]

/-!
### Lemmas about `toList` and `buildLoop`
-/

theorem toList_source (p : Projection) : (toList p).1 = p.source := rfl

theorem toList_target (p : Projection) : (toList p).2.1 = p.target := rfl

theorem toList_conn (p : Projection) : (toList p).2.2.1 = p.conn_spec := rfl

/-- The loop only performs array fast-path dispatches; the single batch
submission happens after it. -/
theorem buildLoop_calls_no_batchCall (items : List BatchItem) :
    ∀ c ∈ (buildLoop items).1, isBatchCall c = false := by
  induction items with
  | nil => intro c hc; simp [buildLoop] at hc
  | cons it rest ih =>
    intro c hc
    cases it with
    | other t => simp [buildLoop] at hc
    | proj p =>
      by_cases harr : p.use_connect_arrays
      · simp [buildLoop, harr] at hc
        rcases hc with rfl | hc
        · rfl
        · exact ih c hc
      · by_cases hlay : connect_layers_needed (toList p).2.2.1 (toList p).2.2.2
        · rcases hs : grpSpatial (toList p).1 with e1 | os1
          · simp [buildLoop, harr, hlay, hs] at hc
          · cases os1 with
            | none => simp [buildLoop, harr, hlay, hs] at hc
            | some u1 =>
              rcases ht : grpSpatial (toList p).2.1 with e2 | os2
              · simp [buildLoop, harr, hlay, hs, ht] at hc
              · cases os2 with
                | none => simp [buildLoop, harr, hlay, hs, ht] at hc
                | some u2 =>
                  simp [buildLoop, harr, hlay, hs, ht] at hc
                  exact ih c hc
        · simp [buildLoop, harr, hlay] at hc
          exact ih c hc

/-- On a batch of standard-path projections the loop performs no engine
call and emits exactly the standard instructions, in input order. -/
theorem buildLoop_std (ps : List Projection)
    (h : ∀ p ∈ ps, p.use_connect_arrays = false ∧
      connect_layers_needed (toList p).2.2.1 (toList p).2.2.2 = false) :
    buildLoop (ps.map BatchItem.proj) = ([], Except.ok (ps.map stdInstr)) := by
  induction ps with
  | nil => rfl
  | cons p rest ih =>
    obtain ⟨harr, hlay⟩ := h p (by simp)
    have hrest : ∀ q ∈ rest, q.use_connect_arrays = false ∧
        connect_layers_needed (toList q).2.2.1 (toList q).2.2.2 = false :=
      fun q hq => h q (by simp [hq])
    simp [buildLoop, harr, hlay, ih hrest, stdInstr, Except.map]

/-- A prefix of non-failing items preserves an error produced further down
the batch. -/
theorem buildLoop_append_error (pre rest : List BatchItem) (e : PyErr)
    (hpre : ∀ it ∈ pre, noErrItem it = true)
    (he : (buildLoop rest).2 = Except.error e) :
    (buildLoop (pre ++ rest)).2 = Except.error e := by
  induction pre with
  | nil => simpa using he
  | cons it tail ih =>
    have hit := hpre it (by simp)
    have htail : ∀ x ∈ tail, noErrItem x = true := fun x hx => hpre x (by simp [hx])
    have ih2 := ih htail
    cases it with
    | other t => simp [noErrItem] at hit
    | proj p =>
      by_cases harr : p.use_connect_arrays
      · simpa [buildLoop, harr] using ih2
      · by_cases hlay : connect_layers_needed (toList p).2.2.1 (toList p).2.2.2
        · have hit' : (match (toList p).1, (toList p).2.1 with
              | Grp.nc c1, Grp.nc c2 => c1.spatial.isSome && c2.spatial.isSome
              | _, _ => false) = true := by
            simpa [noErrItem, harr, hlay] using hit
          rcases h1 : (toList p).1 with c1 | l1
          · rcases h2 : (toList p).2.1 with c2 | l2
            · rw [h1, h2] at hit'
              simp only [Bool.and_eq_true] at hit'
              obtain ⟨hs1, hs2⟩ := hit'
              obtain ⟨u1, hu1⟩ := Option.isSome_iff_exists.mp hs1
              obtain ⟨u2, hu2⟩ := Option.isSome_iff_exists.mp hs2
              simp [buildLoop, harr, hlay, h1, h2, grpSpatial, hu1, hu2, Except.map, ih2]
            · rw [h1, h2] at hit'; simp at hit'
          · rw [h1] at hit'; simp at hit'
        · simp [buildLoop, harr, hlay, Except.map, ih2]

/-!
### Claims
-/

/-- C1: for a batch of pending descriptors none of which takes the array
fast-path or the spatial-merge path, one `BuildNetwork` call submits to the
execution engine exactly one batch-connect instruction list, whose
instructions are the standard-path instructions of the descriptors in the
order they were added to the batch. -/
theorem buildNetwork_order_preservation (ps : List Projection)
    (h : ∀ p ∈ ps, p.use_connect_arrays = false ∧
      connect_layers_needed (toList p).2.2.1 (toList p).2.2.2 = false) :
    BuildNetwork { batch := ps.map BatchItem.proj, network_built := false } =
      ([EngineCall.batchCall (ps.map stdInstr)], Except.ok (),
       { batch := [], network_built := true }) := by
  simp [BuildNetwork, buildLoop_std ps h]

theorem buildNetwork_order_preservation_witness :
    BuildNetwork { batch := [sampleFI2, sampleFI5].map BatchItem.proj, network_built := false } =
      ([EngineCall.batchCall ([sampleFI2, sampleFI5].map stdInstr)], Except.ok (),
       { batch := [], network_built := true }) :=
  buildNetwork_order_preservation [sampleFI2, sampleFI5] (by decide)

/-- C2: when `BuildNetwork` succeeds, the built flag is set, a second call
with no intervening `Connect` is a no-op (no engine call, state
untouched), and — starting from an un-built state — the engine batch
submission happens exactly once. -/
theorem buildNetwork_idempotent (st : BNState)
    (hok : (BuildNetwork st).2.1 = Except.ok ()) :
    (BuildNetwork st).2.2.network_built = true ∧
    BuildNetwork (BuildNetwork st).2.2 = ([], Except.ok (), (BuildNetwork st).2.2) ∧
    (st.network_built = false →
      ((BuildNetwork st).1.filter isBatchCall).length = 1) := by
  by_cases hb : st.network_built
  · refine ⟨by simp [BuildNetwork, hb], by simp [BuildNetwork, hb], ?_⟩
    intro hf
    rw [hb] at hf
    cases hf
  · rcases hq : buildLoop st.batch with ⟨calls, res⟩
    cases res with
    | error e =>
      exfalso
      have hcontra : (BuildNetwork st).2.1 = Except.error e := by
        simp [BuildNetwork, hb, hq]
      rw [hcontra] at hok
      cases hok
    | ok instrs =>
      have hbn : BuildNetwork st =
          (calls ++ [EngineCall.batchCall instrs], Except.ok (),
           { batch := [], network_built := true }) := by
        simp [BuildNetwork, hb, hq]
      refine ⟨by rw [hbn], by rw [hbn]; rfl, ?_⟩
      intro _
      rw [hbn]
      have hnone : calls.filter isBatchCall = [] := by
        rw [List.filter_eq_nil_iff]
        intro c hc
        have hnb := buildLoop_calls_no_batchCall st.batch c (by rw [hq]; exact hc)
        simp [hnb]
      simp [List.filter_append, hnone, isBatchCall]

theorem buildNetwork_idempotent_witness :
    (BuildNetwork { batch := [], network_built := false }).2.2.network_built = true ∧
    BuildNetwork (BuildNetwork { batch := [], network_built := false }).2.2 =
      ([], Except.ok (), (BuildNetwork { batch := [], network_built := false }).2.2) ∧
    ((BuildNetwork { batch := [], network_built := false }).1.filter isBatchCall).length = 1 :=
  ⟨(buildNetwork_idempotent { batch := [], network_built := false } rfl).1,
   (buildNetwork_idempotent { batch := [], network_built := false } rfl).2.1,
   (buildNetwork_idempotent { batch := [], network_built := false } rfl).2.2 rfl⟩

/-- C3: compiling a batch whose first failing descriptor triggers the
spatial-merge path with a spatial source but a target lacking spatial
metadata raises the `TypeError` naming the postsynaptic side, and the
batch state is left untouched (pending descriptors still queued, built
flag unchanged). -/
theorem buildNetwork_missing_target_spatial (st : BNState) (pre post : List BatchItem)
    (p : Projection) (c1 c2 : NodeCollection)
    (hb : st.network_built = false)
    (hsplit : st.batch = pre ++ BatchItem.proj p :: post)
    (hpre : ∀ it ∈ pre, noErrItem it = true)
    (harr : p.use_connect_arrays = false)
    (hlay : connect_layers_needed (toList p).2.2.1 (toList p).2.2.2 = true)
    (hsrc : p.source = Grp.nc c1) (hsrcSp : c1.spatial.isSome = true)
    (htgt : p.target = Grp.nc c2) (htgtSp : c2.spatial = Option.none) :
    (BuildNetwork st).2.1 =
      Except.error (PyErr.typeError "Postsynaptic NodeCollection must have spatial information") ∧
    (BuildNetwork st).2.2 = st := by
  obtain ⟨u1, hu1⟩ := Option.isSome_iff_exists.mp hsrcSp
  have hhead : (buildLoop (BatchItem.proj p :: post)).2 =
      Except.error (PyErr.typeError "Postsynaptic NodeCollection must have spatial information") := by
    simp [buildLoop, harr, hlay, toList_source, toList_target, hsrc, htgt, grpSpatial,
      hu1, htgtSp]
  have herr2 : (buildLoop st.batch).2 =
      Except.error (PyErr.typeError "Postsynaptic NodeCollection must have spatial information") := by
    rw [hsplit]
    exact buildLoop_append_error pre _ _ hpre hhead
  constructor <;> simp [BuildNetwork, hb, herr2]

theorem buildNetwork_missing_target_spatial_witness :
    (BuildNetwork { batch := [BatchItem.proj sampleMasked], network_built := false }).2.1 =
      Except.error (PyErr.typeError "Postsynaptic NodeCollection must have spatial information") ∧
    (BuildNetwork { batch := [BatchItem.proj sampleMasked], network_built := false }).2.2 =
      { batch := [BatchItem.proj sampleMasked], network_built := false } :=
  buildNetwork_missing_target_spatial
    { batch := [BatchItem.proj sampleMasked], network_built := false }
    [] [] sampleMasked { ids := [1], spatial := some () } { ids := [1, 2], spatial := Option.none }
    rfl rfl (by simp) rfl (by decide) rfl rfl rfl rfl

/-- C4 counterexample: after a `clone`, assigning a new value to the
top-level key `indegree` through the clone's connection-spec mapping IS
visible through the original — `copy.copy` copies the mapping reference,
not the mapping — contradicting the claim that the original's entry does
not change. -/
theorem clone_toplevel_write_shared_cex :
    getattrAux sampleStore sampleObj "indegree" = Option.none ∧
    getattrAux (setattrAux sampleStore (ProjObj.clone sampleObj) "indegree" (Val.vnat 5))
      sampleObj "indegree" = some (Val.vnat 5) := by
  decide

/-- C4 (amended): `clone()` is a shallow object copy that shares the
connection-specification mapping by reference, so assigning a top-level
auxiliary key through the clone is visible through the original; all
structure within the mapping (nested or not) is likewise shared. -/
theorem clone_shares_conn_spec (σ : Store) (p : ProjObj) (attr : String) (v : Val)
    (h : p.connSpecRef < σ.length) :
    ProjObj.clone p = p ∧
    getattrAux (setattrAux σ (ProjObj.clone p) attr v) p attr = some v := by
  refine ⟨rfl, ?_⟩
  unfold getattrAux setattrAux ProjObj.clone
  rw [storeGet_storeSet_self _ _ _ h, dictLookup_dictInsert_self]

theorem clone_shares_conn_spec_witness :
    ProjObj.clone sampleObj = sampleObj ∧
    getattrAux (setattrAux sampleStore (ProjObj.clone sampleObj) "indegree" (Val.vnat 5))
      sampleObj "indegree" = some (Val.vnat 5) :=
  clone_shares_conn_spec sampleStore sampleObj "indegree" (Val.vnat 5) (by decide)

/-- C5 counterexample: `Connect` applied to a list containing a
non-projection — an argument that is neither a descriptor nor a sequence
of descriptors — does not raise: element types are never checked and the
element is appended. -/
theorem connect_no_element_check_cex :
    Connect { batch := [], network_built := false } (PyArg.sarg [BatchItem.other 0]) =
      Except.ok { batch := [BatchItem.other 0], network_built := false } ∧
    isProjArg (PyArg.sarg [BatchItem.other 0]) = false ∧
    seqOfProjections (PyArg.sarg [BatchItem.other 0]) = false :=
  ⟨rfl, rfl, rfl⟩

/-- C5 (amended): `Connect` raises `TypeError` iff its argument is neither
a projection nor a list/tuple (element types are never checked); when it
accepts the argument it appends the element(s) to the batch preserving
order and leaves the built flag cleared. -/
theorem connect_shape_check (st : BNState) (arg : PyArg) :
    ((∃ e, Connect st arg = Except.error e) ↔ ∃ t, arg = PyArg.oarg t) ∧
    (∀ p, arg = PyArg.parg p →
      Connect st arg =
        Except.ok { batch := st.batch ++ [BatchItem.proj p], network_built := false }) ∧
    (∀ items, arg = PyArg.sarg items →
      Connect st arg = Except.ok { batch := st.batch ++ items, network_built := false }) := by
  cases arg <;> simp [Connect]

theorem connect_shape_check_witness :
    Connect { batch := [], network_built := false }
        (PyArg.sarg [BatchItem.proj sampleOneToOne]) =
      Except.ok { batch := [BatchItem.proj sampleOneToOne], network_built := false } :=
  (connect_shape_check { batch := [], network_built := false }
    (PyArg.sarg [BatchItem.proj sampleOneToOne])).2.2 [BatchItem.proj sampleOneToOne] rfl

/-- C6 counterexample: on a descriptor with no synapse specification,
`to_list`'s fourth component is a single mapping (the defaulted dict), not
a list of parameter mappings — the list coercion happens later, inside
`BuildNetwork`. -/
theorem toList_not_list_cex :
    (toList sampleOneToOne).2.2.2 =
      SynVal.svdict [("synapse_model", Val.vstr "static_synapse")] ∧
    ¬ ∃ ds : List Dict, (toList sampleOneToOne).2.2.2 = SynVal.svlist ds := by
  have h : (toList sampleOneToOne).2.2.2 =
      SynVal.svdict [("synapse_model", Val.vstr "static_synapse")] := by decide
  refine ⟨h, ?_⟩
  rintro ⟨ds, hds⟩
  rw [h] at hds
  cases hds

/-- C6 (amended): `to_list` returns the four components `(source, target,
connection_spec, syn)` where `syn` is the synapse specification with the
model name defaulted — a missing spec becomes the single default mapping,
and a single mapping always ends up containing a `synapse_model` entry —
but it is not coerced to a list of mappings here. -/
theorem toList_components (p : Projection) :
    (toList p).1 = p.source ∧ (toList p).2.1 = p.target ∧
    (toList p).2.2.1 = p.conn_spec ∧
    (p.syn_spec = SynVal.svnone →
      (toList p).2.2.2 = SynVal.svdict [("synapse_model", Val.vstr "static_synapse")]) ∧
    (∀ d, p.syn_spec = SynVal.svdict d →
      ∃ d2, (toList p).2.2.2 = SynVal.svdict d2 ∧
        (dictLookup d2 "synapse_model").isSome = true) := by
  refine ⟨rfl, rfl, rfl, ?_, ?_⟩
  · intro h
    simp [toList, h, process_syn_spec]
  · intro d h
    cases hd : dictLookup d "synapse_model" with
    | none =>
      refine ⟨dictInsert d "synapse_model" (Val.vstr "static_synapse"), ?_, ?_⟩
      · simp [toList, h, process_syn_spec, hd]
      · simp [dictLookup_dictInsert_self]
    | some v =>
      refine ⟨d, ?_, ?_⟩
      · simp [toList, h, process_syn_spec, hd]
      · simp [hd]

theorem toList_components_witness :
    (toList sampleOneToOne).1 = sampleOneToOne.source ∧
    (toList sampleOneToOne).2.2.2 =
      SynVal.svdict [("synapse_model", Val.vstr "static_synapse")] :=
  ⟨(toList_components sampleOneToOne).1,
   (toList_components sampleOneToOne).2.2.2.1 rfl⟩

/-- C7: a standard-path descriptor with no synapse specification compiles
to an instruction whose synapse component is the one-element list holding
the default synapse mapping. -/
theorem buildNetwork_default_synapse (p : Projection)
    (hsyn : p.syn_spec = SynVal.svnone)
    (harr : p.use_connect_arrays = false)
    (hlay : connect_layers_needed (toList p).2.2.1 (toList p).2.2.2 = false) :
    BuildNetwork { batch := [BatchItem.proj p], network_built := false } =
      ([EngineCall.batchCall
          [EngineInstr.standard p.source p.target p.conn_spec
            (SynVal.svlist [[("synapse_model", Val.vstr "static_synapse")]])]],
       Except.ok (), { batch := [], network_built := true }) := by
  have h4 : (toList p).2.2.2 =
      SynVal.svdict [("synapse_model", Val.vstr "static_synapse")] := by
    simp [toList, hsyn, process_syn_spec]
  have hlay2 : connect_layers_needed p.conn_spec
      (SynVal.svdict [("synapse_model", Val.vstr "static_synapse")]) = false := by
    rw [← toList_conn p, ← h4]
    exact hlay
  simp [BuildNetwork, buildLoop, harr, hlay2, h4, coerceSyn, toList_source, toList_target,
    toList_conn, Except.map]

theorem buildNetwork_default_synapse_witness :
    BuildNetwork { batch := [BatchItem.proj sampleOneToOne], network_built := false } =
      ([EngineCall.batchCall
          [EngineInstr.standard sampleOneToOne.source sampleOneToOne.target
            sampleOneToOne.conn_spec
            (SynVal.svlist [[("synapse_model", Val.vstr "static_synapse")]])]],
       Except.ok (), { batch := [], network_built := true }) :=
  buildNetwork_default_synapse sampleOneToOne rfl rfl (by decide)

/-- C8: in descriptor construction a non-boolean value for
`allow_autapses`/`allow_multapses` is silently ignored — the key is absent
from the resulting connection spec — while a boolean is stored under the
key with that value. -/
theorem projInit_flag_policy (source target : Grp) (aa am : Option Val)
    (syn : SynVal) (base kwargs : Dict)
    (hbA : dictLookup base "allow_autapses" = Option.none)
    (hkA : dictLookup kwargs "allow_autapses" = Option.none)
    (hbM : dictLookup base "allow_multapses" = Option.none)
    (hkM : dictLookup kwargs "allow_multapses" = Option.none) :
    ((∀ b, aa ≠ some (Val.vbool b)) →
      dictLookup (projInit source target aa am syn base kwargs).conn_spec "allow_autapses" =
        Option.none) ∧
    (∀ b, aa = some (Val.vbool b) →
      dictLookup (projInit source target aa am syn base kwargs).conn_spec "allow_autapses" =
        some (Val.vbool b)) ∧
    ((∀ b, am ≠ some (Val.vbool b)) →
      dictLookup (projInit source target aa am syn base kwargs).conn_spec "allow_multapses" =
        Option.none) ∧
    (∀ b, am = some (Val.vbool b) →
      dictLookup (projInit source target aa am syn base kwargs).conn_spec "allow_multapses" =
        some (Val.vbool b)) := by
  have hconn : (projInit source target aa am syn base kwargs).conn_spec =
      applyFlag (applyFlag (dictUpdate base kwargs) "allow_autapses" aa)
        "allow_multapses" am := rfl
  have hA0 : dictLookup (dictUpdate base kwargs) "allow_autapses" = Option.none :=
    dictLookup_dictUpdate_none kwargs base _ hkA hbA
  have hM0 : dictLookup (dictUpdate base kwargs) "allow_multapses" = Option.none :=
    dictLookup_dictUpdate_none kwargs base _ hkM hbM
  have hne : ("allow_multapses" : String) ≠ "allow_autapses" := by decide
  have hne2 : ("allow_autapses" : String) ≠ "allow_multapses" := by decide
  refine ⟨?_, ?_, ?_, ?_⟩
  · intro hnb
    rw [hconn, applyFlag_lookup_ne _ _ _ _ hne, applyFlag_nonbool _ _ _ hnb]
    exact hA0
  · intro b hb
    rw [hconn, applyFlag_lookup_ne _ _ _ _ hne, hb]
    simp [applyFlag, dictLookup_dictInsert_self]
  · intro hnb
    rw [hconn, applyFlag_nonbool _ _ _ hnb, applyFlag_lookup_ne _ _ _ _ hne2]
    exact hM0
  · intro b hb
    rw [hconn, hb]
    simp [applyFlag, dictLookup_dictInsert_self]

theorem projInit_flag_policy_witness :
    dictLookup (projInit sampleGrp sampleGrp (some (Val.vstr "yes")) (some (Val.vbool true))
        SynVal.svnone [("rule", Val.vstr "one_to_one")] []).conn_spec "allow_autapses" =
      Option.none ∧
    dictLookup (projInit sampleGrp sampleGrp (some (Val.vstr "yes")) (some (Val.vbool true))
        SynVal.svnone [("rule", Val.vstr "one_to_one")] []).conn_spec "allow_multapses" =
      some (Val.vbool true) :=
  ⟨(projInit_flag_policy sampleGrp sampleGrp (some (Val.vstr "yes")) (some (Val.vbool true))
      SynVal.svnone [("rule", Val.vstr "one_to_one")] []
      (by decide) (by decide) (by decide) (by decide)).1 (by decide),
   (projInit_flag_policy sampleGrp sampleGrp (some (Val.vstr "yes")) (some (Val.vbool true))
      SynVal.svnone [("rule", Val.vstr "one_to_one")] []
      (by decide) (by decide) (by decide) (by decide)).2.2.2 true rfl⟩

/-- C9: an `ArrayConnect` built from raw index sequences with a duplicated
source index sets `use_connect_arrays`, and `BuildNetwork` dispatches it
through the engine's array-connect operation at the point it is
encountered — the shared instruction list submitted to batch-connect
stays empty. -/
theorem arrayConnect_duplicate_fast_path (s t : List Nat) (aa am : Option Val)
    (syn : SynVal) (kwargs : Dict) (hdup : dedupOk s = false) :
    (ArrayConnect.make (Grp.raw s) (Grp.raw t) aa am syn kwargs).use_connect_arrays = true ∧
    BuildNetwork
        { batch := [BatchItem.proj (ArrayConnect.make (Grp.raw s) (Grp.raw t) aa am syn kwargs)],
          network_built := false } =
      ([EngineCall.arrayCall
          (toList (ArrayConnect.make (Grp.raw s) (Grp.raw t) aa am syn kwargs)).1
          (toList (ArrayConnect.make (Grp.raw s) (Grp.raw t) aa am syn kwargs)).2.1
          (toList (ArrayConnect.make (Grp.raw s) (Grp.raw t) aa am syn kwargs)).2.2.1
          (toList (ArrayConnect.make (Grp.raw s) (Grp.raw t) aa am syn kwargs)).2.2.2,
        EngineCall.batchCall []],
       Except.ok (), { batch := [], network_built := true }) := by
  have hp : (ArrayConnect.make (Grp.raw s) (Grp.raw t) aa am syn kwargs).use_connect_arrays =
      true := by
    simp [ArrayConnect.make, hdup]
  exact ⟨hp, by simp [BuildNetwork, buildLoop, hp]⟩

theorem arrayConnect_duplicate_fast_path_witness :
    (ArrayConnect.make (Grp.raw [1, 1]) (Grp.raw [1, 2]) Option.none Option.none
      SynVal.svnone []).use_connect_arrays = true ∧
    BuildNetwork
        { batch := [BatchItem.proj (ArrayConnect.make (Grp.raw [1, 1]) (Grp.raw [1, 2])
            Option.none Option.none SynVal.svnone [])],
          network_built := false } =
      ([EngineCall.arrayCall
          (toList (ArrayConnect.make (Grp.raw [1, 1]) (Grp.raw [1, 2]) Option.none Option.none
            SynVal.svnone [])).1
          (toList (ArrayConnect.make (Grp.raw [1, 1]) (Grp.raw [1, 2]) Option.none Option.none
            SynVal.svnone [])).2.1
          (toList (ArrayConnect.make (Grp.raw [1, 1]) (Grp.raw [1, 2]) Option.none Option.none
            SynVal.svnone [])).2.2.1
          (toList (ArrayConnect.make (Grp.raw [1, 1]) (Grp.raw [1, 2]) Option.none Option.none
            SynVal.svnone [])).2.2.2,
        EngineCall.batchCall []],
       Except.ok (), { batch := [], network_built := true }) :=
  arrayConnect_duplicate_fast_path [1, 1] [1, 2] Option.none Option.none SynVal.svnone []
    (by decide)

/-- C10: `ConnectImmediately` on a sequence containing a non-projection
raises the `TypeError` during the up-front shape check, before applying
any element — so no element produces an engine call — whereas `Connect`
accepts the same sequence unchecked. -/
theorem connectImmediately_atomic_shape_check (items : List BatchItem)
    (h : ∃ it ∈ items, isProjItem it = false) :
    ConnectImmediately (PyArg.sarg items) =
      Except.error
        (PyErr.typeError "\x22projections\x22 must be a projection or a list of projections") ∧
    ∀ st, Connect st (PyArg.sarg items) =
      Except.ok { batch := st.batch ++ items, network_built := false } := by
  obtain ⟨it, hmem, hni⟩ := h
  have hall : items.all isProjItem = false := by
    cases hcase : items.all isProjItem with
    | false => rfl
    | true =>
      exfalso
      have htrue := List.all_eq_true.mp hcase it hmem
      rw [hni] at htrue
      cases htrue
  exact ⟨by simp [ConnectImmediately, hall], fun st => rfl⟩

theorem connectImmediately_atomic_shape_check_witness :
    ConnectImmediately (PyArg.sarg [BatchItem.proj sampleOneToOne, BatchItem.other 0]) =
      Except.error
        (PyErr.typeError "\x22projections\x22 must be a projection or a list of projections") ∧
    ∀ st, Connect st (PyArg.sarg [BatchItem.proj sampleOneToOne, BatchItem.other 0]) =
      Except.ok { batch := st.batch ++ [BatchItem.proj sampleOneToOne, BatchItem.other 0],
                  network_built := false } :=
  connectImmediately_atomic_shape_check
    [BatchItem.proj sampleOneToOne, BatchItem.other 0]
    ⟨BatchItem.other 0, by decide, rfl⟩

end ProjSpec
